import Mathlib

/-!
A shallow embedding of the record-indexing core of `invenio_indexer/api.py`
(the `_record_to_index` helper and the `RecordIndexer` class), together with
theorems about its behaviour.

Modelling choices:

* External collaborators (the record store, the `schema_to_index` lookup of
  `invenio_search`, the application configuration defaults, the serializer
  `record.dumps()`, the `before_record_index` signal receivers and the search
  engine client's responses) are bundled into an `Env` parameter; they are
  outside the repository and the spec treats them as contracts.
* Record identifiers reach the publisher as arbitrary values that are
  stringified with `str(...)`; the publisher is modelled over `Nat`
  identifiers with `toString` playing the role of `str`.  Everywhere else a
  record identifier is already a string (its stringified form), so `str` is
  the identity there.
* Exceptions are modelled with `Except Err`; `Err.noResultFound` is the
  `NoResultFound` exception raised by `Record.get_record`.
* The synchronous operations return the engine response together with the
  list of engine calls they issued, so "no write was issued" is a statement
  about an empty call list.
* The consumer drain `_actionsiter` is a Python generator whose side effects
  (ack/reject) happen in lock step with translation; it is modelled as a
  function from the list of queued messages to the produced bulk actions,
  the per-message ack/reject outcomes (one entry per message that was fully
  handled, in message order), and the error, if any, that escaped the
  generator and aborted the drain.
* `elasticsearch.helpers.bulk(client, actions, stats_only=True)` is an
  external helper; following the spec's collaborator contract
  (`bulk(action_sequence) -> count`) the engine is modelled as performing
  every streamed action and reporting their count.
-/

deriving instance DecidableEq for Except

namespace InvenioIndexer

/-- Errors surfaced by the core.  `noResultFound` models the `NoResultFound`
exception raised by `Record.get_record`; `serializationError` models a
failure to serialize a record body; `otherErr` covers any other exception. -/
inductive Err where
  | noResultFound
  | serializationError
  | otherErr (msg : String)
  deriving DecidableEq, Repr

/-- A record from the record store: stable (stringified) identifier,
monotonically increasing revision number, the optional `$schema` attribute
and a serializable body. -/
structure Record where
  id : String
  revision_id : Nat
  schema : Option String
  body : String
  deriving DecidableEq, Repr

/-- A queued request message body, the dict published by `_bulk_op`:
`{id: string, op: string, index: string|null, doctype: string|null}`. -/
structure Payload where
  id : String
  op : String
  index : Option String
  doctype : Option String
  deriving DecidableEq, Repr

/-- An Elasticsearch bulk action dictionary.  The optional fields `version`,
`version_type` and `source` model the keys `_version`, `_version_type` and
`_source`, which are present in the dict exactly when the field is `some`. -/
structure BulkAction where
  op_type : String
  index : String
  type_ : String
  id : String
  version : Option Nat
  version_type : Option String
  source : Option String
  deriving DecidableEq, Repr

/-- The arguments of a `client.index(...)` call issued by the synchronous
path. -/
structure IndexCall where
  id : String
  version : Nat
  version_type : String
  index : String
  doctype : String
  body : String
  deriving DecidableEq, Repr

/-- The arguments of a `client.delete(...)` call issued by the synchronous
path. -/
structure DeleteCall where
  id : String
  index : String
  doctype : String
  deriving DecidableEq, Repr

/-- The external collaborators of the core. -/
structure Env where
  /-- `Record.get_record`: `none` means the lookup raises `NoResultFound`. -/
  getRecord : String → Option Record
  /-- `invenio_search.utils.schema_to_index`: a pure lookup returning a pair
  whose components may be `None` (here `none`) or empty. -/
  schemaToIndex : String → Option String × Option String
  /-- `current_app.config['INDEXER_DEFAULT_INDEX']`. -/
  defaultIndex : String
  /-- `current_app.config['INDEXER_DEFAULT_DOCTYPE']`. -/
  defaultDoctype : String
  /-- `record.dumps()`: serialization of the record body, which may fail. -/
  dumps : Record → Except Err String
  /-- The `before_record_index` signal receivers, which may modify the
  outgoing data. -/
  hook : String → Record → String
  /-- The search engine's response to an index call. -/
  indexResp : IndexCall → String
  /-- The search engine's response to a delete call. -/
  deleteResp : DeleteCall → String

/-- Python truthiness of an optional string: `None` and `''` are falsy. -/
def truthy : Option String → Bool
  | none => false
  | some s => s != ""

/-- `_record_to_index(record)`: get index/doctype given a record.  Looks up
`record.get('$schema', '')` with `schema_to_index`; if both components of the
result are truthy they are returned, otherwise the configured defaults.
Total by construction: it never fails. -/
def _record_to_index (env : Env) (record : Record) : String × String :=
  let p := env.schemaToIndex (record.schema.getD "")
  if truthy p.1 && truthy p.2 then (p.1.getD "", p.2.getD "")
  else (env.defaultIndex, env.defaultDoctype)

/-- The state of a `RecordIndexer` instance that the indexing logic reads:
the resolved `_version_type` and the resolved `_record_to_index` capability
slot.  The message-queue and client fields configure external collaborators
and are part of `Env`. -/
structure RecordIndexer where
  version_type : String
  recordToIndex : Env → Record → String × String

/-- Python `v or d` for an optional string `v`: `None` and `''` give `d`. -/
def strOrDefault (v : Option String) (d : String) : String :=
  match v with
  | none => d
  | some s => if s = "" then d else s

/-- `RecordIndexer.__init__`: `self._version_type = version_type or
'external_gte'` and `self._record_to_index = record_to_index or
_record_to_index`. -/
def RecordIndexer.init (version_type : Option String)
    (record_to_index : Option (Env → Record → String × String)) :
    RecordIndexer :=
  { version_type := strOrDefault version_type "external_gte"
    recordToIndex := record_to_index.getD _record_to_index }

/-- `RecordIndexer._prepare_record`: `data = record.dumps()`, then the
`before_record_index` signal may modify the data, which is returned. -/
def RecordIndexer._prepare_record (env : Env) (record : Record) :
    Except Err String :=
  match env.dumps record with
  | .error e => .error e
  | .ok data => .ok (env.hook data record)

/-- `RecordIndexer.index(record)`: resolve the index target, serialize the
record and issue a single `client.index` write carrying the record id as
document id, its revision as version, and the configured version type.
Returns the engine response and the list of index calls issued. -/
def RecordIndexer.index (env : Env) (idx : RecordIndexer) (record : Record) :
    Except Err String × List IndexCall :=
  let p := idx.recordToIndex env record
  match RecordIndexer._prepare_record env record with
  | .error e => (.error e, [])
  | .ok body =>
    let call : IndexCall :=
      { id := record.id
        version := record.revision_id
        version_type := idx.version_type
        index := p.1
        doctype := p.2
        body := body }
    (.ok (env.indexResp call), [call])

/-- `RecordIndexer.index_by_id(record_uuid)`:
`self.index(Record.get_record(record_uuid))`. -/
def RecordIndexer.index_by_id (env : Env) (idx : RecordIndexer)
    (record_uuid : String) : Except Err String × List IndexCall :=
  match env.getRecord record_uuid with
  | none => (.error .noResultFound, [])
  | some record => RecordIndexer.index env idx record

/-- `RecordIndexer.delete(record)`: resolve the index target and issue a
single `client.delete` by document id.  Returns the engine response and the
list of delete calls issued. -/
def RecordIndexer.delete (env : Env) (idx : RecordIndexer) (record : Record) :
    Except Err String × List DeleteCall :=
  let p := idx.recordToIndex env record
  let call : DeleteCall := { id := record.id, index := p.1, doctype := p.2 }
  (.ok (env.deleteResp call), [call])

/-- `RecordIndexer.delete_by_id(record_uuid)`:
`self.delete(Record.get_record(record_uuid))` with no `return`, so the
method evaluates the engine response but returns `None` (here `Unit`). -/
def RecordIndexer.delete_by_id (env : Env) (idx : RecordIndexer)
    (record_uuid : String) : Except Err Unit × List DeleteCall :=
  match env.getRecord record_uuid with
  | none => (.error .noResultFound, [])
  | some record =>
    let r := RecordIndexer.delete env idx record
    (r.1.map (fun _ => ()), r.2)

/-- `RecordIndexer._bulk_op(record_id_iterator, op_type, index, doctype)`:
asserts the operation is one of `index`, `create`, `delete`, `update`
(`none` models the `AssertionError`), then publishes one message
`dict(id=str(rec), op=op_type, index=index, doctype=doctype)` per yielded
identifier.  The returned list is the sequence of published messages. -/
def RecordIndexer._bulk_op (record_id_iterator : List Nat) (op_type : String)
    (index doctype : Option String) : Option (List Payload) :=
  if op_type = "index" ∨ op_type = "create" ∨ op_type = "delete" ∨
      op_type = "update" then
    some (record_id_iterator.map (fun rec =>
      { id := toString rec, op := op_type, index := index, doctype := doctype }))
  else none

/-- `RecordIndexer.bulk_index(record_id_iterator)`:
`self._bulk_op(record_id_iterator, 'index')`. -/
def RecordIndexer.bulk_index (record_id_iterator : List Nat) :
    Option (List Payload) :=
  RecordIndexer._bulk_op record_id_iterator "index" none none

/-- `RecordIndexer.bulk_delete(record_id_iterator)`:
`self._bulk_op(record_id_iterator, 'delete')`. -/
def RecordIndexer.bulk_delete (record_id_iterator : List Nat) :
    Option (List Payload) :=
  RecordIndexer._bulk_op record_id_iterator "delete" none none

/-- `RecordIndexer._delete_action(payload)`: take index/doctype from the
payload when both are truthy, otherwise load the record and resolve; the
resulting dict has exactly the keys `_op_type`, `_index`, `_type`, `_id`. -/
def RecordIndexer._delete_action (env : Env) (idx : RecordIndexer)
    (payload : Payload) : Except Err BulkAction :=
  if truthy payload.index && truthy payload.doctype then
    .ok
      { op_type := "delete"
        index := payload.index.getD ""
        type_ := payload.doctype.getD ""
        id := payload.id
        version := none
        version_type := none
        source := none }
  else
    match env.getRecord payload.id with
    | none => .error .noResultFound
    | some record =>
      let p := idx.recordToIndex env record
      .ok
        { op_type := "delete"
          index := p.1
          type_ := p.2
          id := payload.id
          version := none
          version_type := none
          source := none }

/-- `RecordIndexer._index_action(payload)`: load the record by the payload
id, resolve index/doctype, and build the bulk index action carrying the
record's revision as `_version` and the configured `_version_type`. -/
def RecordIndexer._index_action (env : Env) (idx : RecordIndexer)
    (payload : Payload) : Except Err BulkAction :=
  match env.getRecord payload.id with
  | none => .error .noResultFound
  | some record =>
    let p := idx.recordToIndex env record
    match RecordIndexer._prepare_record env record with
    | .error e => .error e
    | .ok body =>
      .ok
        { op_type := "index"
          index := p.1
          type_ := p.2
          id := record.id
          version := some record.revision_id
          version_type := some idx.version_type
          source := some body }

/-- The translation step of `_actionsiter` for one decoded message:
`_delete_action` when `payload['op'] == 'delete'`, else `_index_action`. -/
def RecordIndexer.processMessage (env : Env) (idx : RecordIndexer)
    (payload : Payload) : Except Err BulkAction :=
  if payload.op = "delete" then RecordIndexer._delete_action env idx payload
  else RecordIndexer._index_action env idx payload

/-- The fate of one drained message: `message.ack()` or `message.reject()`. -/
inductive Outcome where
  | acked
  | rejected
  deriving DecidableEq, Repr

/-- The observable result of running `_actionsiter` to completion: the bulk
actions yielded, the ack/reject outcome of each fully handled message (in
message order), and the error, if any, that escaped the generator. -/
structure DrainResult where
  actions : List BulkAction
  outcomes : List Outcome
  err : Option Err
  deriving DecidableEq, Repr

/-- `RecordIndexer._actionsiter(message_iterator)`: per message, translate
the payload and yield the action, then ack; if translation raises
`NoResultFound`, reject and continue; any other exception escapes the
generator, so the failing message gets no outcome and the remaining
messages are not drained. -/
def RecordIndexer._actionsiter (env : Env) (idx : RecordIndexer) :
    List Payload → DrainResult
  | [] => ⟨[], [], none⟩
  | payload :: rest =>
    match RecordIndexer.processMessage env idx payload with
    | .ok a =>
      ⟨a :: (RecordIndexer._actionsiter env idx rest).actions,
       .acked :: (RecordIndexer._actionsiter env idx rest).outcomes,
       (RecordIndexer._actionsiter env idx rest).err⟩
    | .error e =>
      if e = Err.noResultFound then
        ⟨(RecordIndexer._actionsiter env idx rest).actions,
         .rejected :: (RecordIndexer._actionsiter env idx rest).outcomes,
         (RecordIndexer._actionsiter env idx rest).err⟩
      else ⟨[], [], some e⟩

/-- `RecordIndexer.process_bulk_queue()`: stream `_actionsiter` into the
engine's bulk helper with `stats_only=True` and return the count.  Per the
collaborator contract `bulk(action_sequence) -> count`, the engine performs
every streamed action; an error escaping the action generator propagates. -/
def RecordIndexer.process_bulk_queue (env : Env) (idx : RecordIndexer)
    (messages : List Payload) : Except Err Nat :=
  let r := RecordIndexer._actionsiter env idx messages
  match r.err with
  | some e => .error e
  | none => .ok r.actions.length

/-! Concrete test fixtures used by the end-to-end claim and by witnesses. -/

/-- The record of the spec's end-to-end scenario: id "42", revision 3,
schema mapping to index "articles" / doctype "article". -/
def record42 : Record :=
  { id := "42"
    revision_id := 3
    schema := some "records/article-v1.json"
    body := "BODY42" }

/-- A record with no `$schema` attribute. -/
def record7 : Record :=
  { id := "7", revision_id := 1, schema := none, body := "BODY7" }

/-- A concrete environment: records "42" and "7" exist, the schema of
record 42 maps to ("articles", "article"), serialization succeeds and the
signal receivers leave the data unchanged. -/
def env42 : Env :=
  { getRecord := fun i =>
      if i = "42" then some record42
      else if i = "7" then some record7
      else none
    schemaToIndex := fun s =>
      if s = "records/article-v1.json" then (some "articles", some "article")
      else (none, none)
    defaultIndex := "records"
    defaultDoctype := "record"
    dumps := fun r => .ok r.body
    hook := fun d _ => d
    indexResp := fun _ => "created"
    deleteResp := fun _ => "deleted" }

/-- `env42` with a serializer that fails on record "7". -/
def envBad : Env :=
  { env42 with
    dumps := fun r =>
      if r.id = "7" then .error .serializationError else .ok r.body }

/-- A `RecordIndexer()` built with all-default arguments. -/
def idx42 : RecordIndexer := RecordIndexer.init none none

/-- The queued request of the end-to-end scenario. -/
def payload42 : Payload := { id := "42", op := "index", index := none, doctype := none }

/-- A queued index request whose record does not exist. -/
def payload99 : Payload := { id := "99", op := "index", index := none, doctype := none }

/-- A queued index request whose record exists but fails to serialize under
`envBad`. -/
def payload7 : Payload := { id := "7", op := "index", index := none, doctype := none }

/-- A queued delete request with pre-resolved index and doctype; record "9"
does not exist in `env42`, which shows that this branch never loads the
record. -/
def payloadDel9 : Payload :=
  { id := "9", op := "delete", index := some "idx1", doctype := some "dt1" }

/-- A queued delete request without pre-resolved index/doctype. -/
def payloadDel42 : Payload :=
  { id := "42", op := "delete", index := none, doctype := none }

/-- The bulk action the end-to-end scenario expects. -/
def action42 : BulkAction :=
  { op_type := "index"
    index := "articles"
    type_ := "article"
    id := "42"
    version := some 3
    version_type := some "external_gte"
    source := some "BODY42" }

/-! Helper lemmas about the consumer drain. -/

theorem actionsiter_nil (env : Env) (idx : RecordIndexer) :
    RecordIndexer._actionsiter env idx [] = ⟨[], [], none⟩ := rfl

theorem actionsiter_cons_ok (env : Env) (idx : RecordIndexer) (p : Payload)
    (ps : List Payload) (a : BulkAction)
    (h : RecordIndexer.processMessage env idx p = .ok a) :
    RecordIndexer._actionsiter env idx (p :: ps) =
      ⟨a :: (RecordIndexer._actionsiter env idx ps).actions,
       .acked :: (RecordIndexer._actionsiter env idx ps).outcomes,
       (RecordIndexer._actionsiter env idx ps).err⟩ := by
  simp [RecordIndexer._actionsiter, h]

theorem actionsiter_cons_notfound (env : Env) (idx : RecordIndexer)
    (p : Payload) (ps : List Payload)
    (h : RecordIndexer.processMessage env idx p = .error .noResultFound) :
    RecordIndexer._actionsiter env idx (p :: ps) =
      ⟨(RecordIndexer._actionsiter env idx ps).actions,
       .rejected :: (RecordIndexer._actionsiter env idx ps).outcomes,
       (RecordIndexer._actionsiter env idx ps).err⟩ := by
  simp [RecordIndexer._actionsiter, h]

theorem actionsiter_cons_abort (env : Env) (idx : RecordIndexer)
    (p : Payload) (ps : List Payload) (e : Err)
    (h : RecordIndexer.processMessage env idx p = .error e)
    (hne : e ≠ Err.noResultFound) :
    RecordIndexer._actionsiter env idx (p :: ps) = ⟨[], [], some e⟩ := by
  simp [RecordIndexer._actionsiter, h, hne]

theorem actionsiter_append (env : Env) (idx : RecordIndexer)
    (xs ys : List Payload) :
    (RecordIndexer._actionsiter env idx xs).err = none →
    RecordIndexer._actionsiter env idx (xs ++ ys) =
      ⟨(RecordIndexer._actionsiter env idx xs).actions ++
         (RecordIndexer._actionsiter env idx ys).actions,
       (RecordIndexer._actionsiter env idx xs).outcomes ++
         (RecordIndexer._actionsiter env idx ys).outcomes,
       (RecordIndexer._actionsiter env idx ys).err⟩ := by
  induction xs with
  | nil => intro _; simp [actionsiter_nil]
  | cons p ps ih =>
    intro h
    cases hp : RecordIndexer.processMessage env idx p with
    | ok a =>
      rw [actionsiter_cons_ok env idx p ps a hp] at h
      have h' := ih h
      rw [List.cons_append, actionsiter_cons_ok env idx p (ps ++ ys) a hp,
        h', actionsiter_cons_ok env idx p ps a hp]
      simp
    | error e =>
      by_cases hne : e = Err.noResultFound
      · subst hne
        rw [actionsiter_cons_notfound env idx p ps hp] at h
        have h' := ih h
        rw [List.cons_append, actionsiter_cons_notfound env idx p (ps ++ ys) hp,
          h', actionsiter_cons_notfound env idx p ps hp]
        simp
      · rw [actionsiter_cons_abort env idx p ps e hp hne] at h
        exact absurd h (by simp)

theorem actionsiter_ack_count (env : Env) (idx : RecordIndexer) :
    ∀ msgs : List Payload,
      ((RecordIndexer._actionsiter env idx msgs).outcomes).count Outcome.acked =
        (RecordIndexer._actionsiter env idx msgs).actions.length := by
  intro msgs
  induction msgs with
  | nil => simp [actionsiter_nil]
  | cons p ps ih =>
    cases hp : RecordIndexer.processMessage env idx p with
    | ok a => simp [actionsiter_cons_ok env idx p ps a hp, ih]
    | error e =>
      by_cases hne : e = Err.noResultFound
      · subst hne
        simp [actionsiter_cons_notfound env idx p ps hp, ih]
      · simp [actionsiter_cons_abort env idx p ps e hp hne]

theorem actionsiter_outcomes_le (env : Env) (idx : RecordIndexer) :
    ∀ msgs : List Payload,
      ((RecordIndexer._actionsiter env idx msgs).outcomes).length ≤
        msgs.length := by
  intro msgs
  induction msgs with
  | nil => simp [actionsiter_nil]
  | cons p ps ih =>
    cases hp : RecordIndexer.processMessage env idx p with
    | ok a =>
      simp only [actionsiter_cons_ok env idx p ps a hp, List.length_cons]
      omega
    | error e =>
      by_cases hne : e = Err.noResultFound
      · subst hne
        simp only [actionsiter_cons_notfound env idx p ps hp, List.length_cons]
        omega
      · simp [actionsiter_cons_abort env idx p ps e hp hne]

/-! The claims. -/

/-- Claim C1: every message drained by `_actionsiter` is acknowledged at
most once (at most one outcome per message, and the number of acks equals
the number of produced actions), an ack happens only together with a
successfully produced bulk action, and a message whose translation raises
`NoResultFound` is rejected, yields no action, and the drain continues with
the remaining messages. -/
theorem claim_c1_ack_discipline :
    (∀ (env : Env) (idx : RecordIndexer) (msgs : List Payload),
      ((RecordIndexer._actionsiter env idx msgs).outcomes).length ≤ msgs.length ∧
      ((RecordIndexer._actionsiter env idx msgs).outcomes).count Outcome.acked =
        (RecordIndexer._actionsiter env idx msgs).actions.length) ∧
    (∀ (env : Env) (idx : RecordIndexer) (p : Payload) (ps : List Payload)
        (a : BulkAction),
      RecordIndexer.processMessage env idx p = .ok a →
      RecordIndexer._actionsiter env idx (p :: ps) =
        ⟨a :: (RecordIndexer._actionsiter env idx ps).actions,
         .acked :: (RecordIndexer._actionsiter env idx ps).outcomes,
         (RecordIndexer._actionsiter env idx ps).err⟩) ∧
    (∀ (env : Env) (idx : RecordIndexer) (xs : List Payload) (p : Payload)
        (ys : List Payload),
      (RecordIndexer._actionsiter env idx xs).err = none →
      RecordIndexer.processMessage env idx p = .error .noResultFound →
      RecordIndexer._actionsiter env idx (xs ++ p :: ys) =
        ⟨(RecordIndexer._actionsiter env idx xs).actions ++
           (RecordIndexer._actionsiter env idx ys).actions,
         (RecordIndexer._actionsiter env idx xs).outcomes ++
           Outcome.rejected :: (RecordIndexer._actionsiter env idx ys).outcomes,
         (RecordIndexer._actionsiter env idx ys).err⟩) := by
  refine ⟨fun env idx msgs =>
      ⟨actionsiter_outcomes_le env idx msgs, actionsiter_ack_count env idx msgs⟩,
    fun env idx p ps a h => actionsiter_cons_ok env idx p ps a h,
    fun env idx xs p ys hx hp => ?_⟩
  rw [actionsiter_append env idx xs (p :: ys) hx,
    actionsiter_cons_notfound env idx p ys hp]

/-- Witness for C1: draining a good message, then one whose record is
missing, then another good one acks the first and third, rejects the
second, and yields exactly the two good actions. -/
theorem claim_c1_ack_discipline_witness :
    RecordIndexer._actionsiter env42 idx42
        ([payload42] ++ payload99 :: [payload7]) =
      ⟨[action42,
        { op_type := "index", index := "records", type_ := "record",
          id := "7", version := some 1, version_type := some "external_gte",
          source := some "BODY7" }],
       [Outcome.acked, Outcome.rejected, Outcome.acked], none⟩ := by
  have h := claim_c1_ack_discipline.2.2 env42 idx42 [payload42] payload99
    [payload7] (by decide) (by decide)
  exact h.trans (by decide)

/-- Claim C2: the end-to-end scenario.  Enqueueing identifier 42 for
indexing publishes exactly the request `{id: "42", op: "index"}`; draining
it in an environment where record "42" has revision 3 and its schema
resolves to ("articles", "article") produces exactly the expected bulk
action, and `process_bulk_queue` returns a count of 1. -/
theorem claim_c2_end_to_end :
    RecordIndexer.bulk_index [42] = some [payload42] ∧
    RecordIndexer._actionsiter env42 idx42 [payload42] =
      ⟨[action42], [Outcome.acked], none⟩ ∧
    RecordIndexer.process_bulk_queue env42 idx42 [payload42] = .ok 1 := by
  refine ⟨?_, ?_, ?_⟩ <;> decide

/-- Claim C7: a translation error other than `NoResultFound` (for example a
serialization error from `_prepare_record`) is not caught per message: it
escapes the lazy action sequence, aborting the drain; the failing message
gets neither an ack nor a reject, and no later message is processed. -/
theorem claim_c7_abort_on_other_errors :
    (∀ (env : Env) (idx : RecordIndexer) (xs : List Payload) (p : Payload)
        (ys : List Payload) (e : Err),
      RecordIndexer.processMessage env idx p = .error e →
      e ≠ Err.noResultFound →
      (RecordIndexer._actionsiter env idx xs).err = none →
      RecordIndexer._actionsiter env idx (xs ++ p :: ys) =
        ⟨(RecordIndexer._actionsiter env idx xs).actions,
         (RecordIndexer._actionsiter env idx xs).outcomes, some e⟩) ∧
    (∀ (env : Env) (idx : RecordIndexer) (p : Payload) (record : Record),
      p.op ≠ "delete" →
      env.getRecord p.id = some record →
      env.dumps record = .error .serializationError →
      RecordIndexer.processMessage env idx p = .error .serializationError) := by
  constructor
  · intro env idx xs p ys e hp hne hx
    rw [actionsiter_append env idx xs (p :: ys) hx,
      actionsiter_cons_abort env idx p ys e hp hne]
    simp
  · intro env idx p record hop hrec hdump
    simp [RecordIndexer.processMessage, hop, RecordIndexer._index_action, hrec,
      RecordIndexer._prepare_record, hdump]

/-- Witness for C7: with a serializer that fails on record "7", draining a
good message followed by the request for "7" and another good message acks
only the first, aborts with the serialization error, and gives the failing
and later messages no outcome. -/
theorem claim_c7_abort_on_other_errors_witness :
    RecordIndexer._actionsiter envBad idx42
        ([payload42] ++ payload7 :: [payload42]) =
      ⟨[action42], [Outcome.acked], some Err.serializationError⟩ ∧
    RecordIndexer.processMessage envBad idx42 payload7 =
      .error .serializationError := by
  have hpm := claim_c7_abort_on_other_errors.2 envBad idx42 payload7 record7
    (by decide) (by decide) (by decide)
  have h := claim_c7_abort_on_other_errors.1 envBad idx42 [payload42] payload7
    [payload42] Err.serializationError hpm (by decide) (by decide)
  exact ⟨h.trans (by decide), hpm⟩

/-- Claim C3: the bulk-path index action carries exactly the
optimistic-concurrency metadata of the synchronous index call — document id
equal to the record id, version equal to the record's revision, version
type equal to the indexer's configured version type — and a `RecordIndexer`
constructed without a version type uses "external_gte". -/
theorem claim_c3_version_policy_refinement :
    (∀ (env : Env) (idx : RecordIndexer) (payload : Payload) (record : Record)
        (body : String),
      env.getRecord payload.id = some record →
      RecordIndexer._prepare_record env record = .ok body →
      RecordIndexer._index_action env idx payload =
        .ok
          { op_type := "index"
            index := (idx.recordToIndex env record).1
            type_ := (idx.recordToIndex env record).2
            id := record.id
            version := some record.revision_id
            version_type := some idx.version_type
            source := some body } ∧
      (RecordIndexer.index env idx record).2 =
        [{ id := record.id
           version := record.revision_id
           version_type := idx.version_type
           index := (idx.recordToIndex env record).1
           doctype := (idx.recordToIndex env record).2
           body := body }]) ∧
    (∀ rti, (RecordIndexer.init none rti).version_type = "external_gte") := by
  constructor
  · intro env idx payload record body hrec hprep
    constructor
    · simp [RecordIndexer._index_action, hrec, hprep]
    · simp [RecordIndexer.index, hprep]
  · intro rti
    rfl

/-- Witness for C3: for record "42" the queued action and the synchronous
index call agree on id "42", version 3, version type "external_gte". -/
theorem claim_c3_version_policy_refinement_witness :
    RecordIndexer._index_action env42 idx42 payload42 = .ok action42 ∧
    (RecordIndexer.index env42 idx42 record42).2 =
      [{ id := "42", version := 3, version_type := "external_gte",
         index := "articles", doctype := "article", body := "BODY42" }] := by
  have h := claim_c3_version_policy_refinement.1 env42 idx42 payload42 record42
    "BODY42" (by decide) (by decide)
  exact ⟨h.1.trans (by decide), h.2.trans (by decide)⟩

/-- Claim C4: `_record_to_index` is total (it never fails, by its type); it
returns the schema-derived pair when the lookup yields a truthy pair, and
the configured defaults otherwise — in particular for a record with no
schema identifier, given that the lookup of the empty string is not a
truthy pair. -/
theorem claim_c4_resolver_fallback :
    ∀ (env : Env) (record : Record),
      (∀ i d, env.schemaToIndex (record.schema.getD "") = (some i, some d) →
        i ≠ "" → d ≠ "" → _record_to_index env record = (i, d)) ∧
      ((truthy (env.schemaToIndex (record.schema.getD "")).1 &&
          truthy (env.schemaToIndex (record.schema.getD "")).2) = false →
        _record_to_index env record = (env.defaultIndex, env.defaultDoctype)) ∧
      (record.schema = none →
        (truthy (env.schemaToIndex "").1 &&
          truthy (env.schemaToIndex "").2) = false →
        _record_to_index env record = (env.defaultIndex, env.defaultDoctype)) := by
  intro env record
  refine ⟨?_, ?_, ?_⟩
  · intro i d hlookup hi hd
    simp [_record_to_index, hlookup, truthy, hi, hd]
  · intro h
    simp only [_record_to_index, h]
    rfl
  · intro hs h
    simp only [_record_to_index, hs, Option.getD_none, h]
    rfl

/-- Witness for C4: record "42" resolves to its schema pair; record "7",
which has no schema, resolves to the configured defaults. -/
theorem claim_c4_resolver_fallback_witness :
    _record_to_index env42 record42 = ("articles", "article") ∧
    _record_to_index env42 record7 = ("records", "record") := by
  constructor
  · exact (claim_c4_resolver_fallback env42 record42).1 "articles" "article"
      (by decide) (by decide) (by decide)
  · exact (claim_c4_resolver_fallback env42 record7).2.2 (by decide) (by decide)

/-- Claim C5: a delete action takes index/doctype from the payload when
both are truthy (without loading the record), otherwise loads the record
and applies the resolver (raising `NoResultFound` when the record is
missing); every delete action has op type "delete" and carries no
`_version`, `_version_type` or `_source` field. -/
theorem claim_c5_delete_action_shape :
    (∀ (env : Env) (idx : RecordIndexer) (p : Payload) (i d : String),
      p.index = some i → i ≠ "" → p.doctype = some d → d ≠ "" →
      RecordIndexer._delete_action env idx p =
        .ok { op_type := "delete", index := i, type_ := d, id := p.id,
              version := none, version_type := none, source := none }) ∧
    (∀ (env : Env) (idx : RecordIndexer) (p : Payload) (record : Record),
      (truthy p.index && truthy p.doctype) = false →
      env.getRecord p.id = some record →
      RecordIndexer._delete_action env idx p =
        .ok { op_type := "delete", index := (idx.recordToIndex env record).1,
              type_ := (idx.recordToIndex env record).2, id := p.id,
              version := none, version_type := none, source := none }) ∧
    (∀ (env : Env) (idx : RecordIndexer) (p : Payload),
      (truthy p.index && truthy p.doctype) = false →
      env.getRecord p.id = none →
      RecordIndexer._delete_action env idx p = .error .noResultFound) ∧
    (∀ (env : Env) (idx : RecordIndexer) (p : Payload) (a : BulkAction),
      RecordIndexer._delete_action env idx p = .ok a →
      a.op_type = "delete" ∧ a.version = none ∧ a.version_type = none ∧
        a.source = none) := by
  refine ⟨?_, ?_, ?_, ?_⟩
  · intro env idx p i d hpi hi hpd hd
    simp [RecordIndexer._delete_action, hpi, hpd, truthy, hi, hd]
  · intro env idx p record h hrec
    simp [RecordIndexer._delete_action, h, hrec]
  · intro env idx p h hrec
    simp [RecordIndexer._delete_action, h, hrec]
  · intro env idx p a h
    simp only [RecordIndexer._delete_action] at h
    split at h
    · injection h with h'
      subst h'
      exact ⟨rfl, rfl, rfl, rfl⟩
    · split at h
      · cases h
      · injection h with h'
        subst h'
        exact ⟨rfl, rfl, rfl, rfl⟩

/-- Witness for C5: a delete payload with pre-resolved index/doctype for a
record that does not even exist yields the payload-derived action; a delete
payload without them yields the resolver-derived action for record "42". -/
theorem claim_c5_delete_action_shape_witness :
    RecordIndexer._delete_action env42 idx42 payloadDel9 =
      .ok { op_type := "delete", index := "idx1", type_ := "dt1", id := "9",
            version := none, version_type := none, source := none } ∧
    RecordIndexer._delete_action env42 idx42 payloadDel42 =
      .ok { op_type := "delete", index := "articles", type_ := "article",
            id := "42", version := none, version_type := none,
            source := none } := by
  constructor
  · exact claim_c5_delete_action_shape.1 env42 idx42 payloadDel9 "idx1" "dt1"
      rfl (by decide) rfl (by decide)
  · have h := claim_c5_delete_action_shape.2.1 env42 idx42 payloadDel42
      record42 (by decide) (by decide)
    exact h.trans (by decide)

/-- Claim C6: `bulk_index` and `bulk_delete` publish exactly one queued
request per identifier, in order, each carrying the stringified identifier,
the fixed operation, and `none` for index and doctype. -/
theorem claim_c6_enqueue_many :
    ∀ ids : List Nat,
      RecordIndexer.bulk_index ids =
        some (ids.map (fun rec =>
          { id := toString rec, op := "index", index := none,
            doctype := none })) ∧
      RecordIndexer.bulk_delete ids =
        some (ids.map (fun rec =>
          { id := toString rec, op := "delete", index := none,
            doctype := none })) := by
  intro ids
  constructor <;>
    simp [RecordIndexer.bulk_index, RecordIndexer.bulk_delete,
      RecordIndexer._bulk_op]

/-- Claim C8: `index_by_id` and `delete_by_id` first load the record and
then perform the corresponding synchronous operation; when no record with
the identifier exists, both fail with `NoResultFound` and issue no engine
call at all (their call lists are empty). -/
theorem claim_c8_by_id_not_found :
    ∀ (env : Env) (idx : RecordIndexer) (uuid : String),
      (∀ record, env.getRecord uuid = some record →
        RecordIndexer.index_by_id env idx uuid =
          RecordIndexer.index env idx record ∧
        (RecordIndexer.delete_by_id env idx uuid).2 =
          (RecordIndexer.delete env idx record).2) ∧
      (env.getRecord uuid = none →
        RecordIndexer.index_by_id env idx uuid = (.error .noResultFound, []) ∧
        RecordIndexer.delete_by_id env idx uuid =
          (.error .noResultFound, [])) := by
  intro env idx uuid
  constructor
  · intro record h
    constructor
    · simp [RecordIndexer.index_by_id, h]
    · simp [RecordIndexer.delete_by_id, h]
  · intro h
    constructor
    · simp [RecordIndexer.index_by_id, h]
    · simp [RecordIndexer.delete_by_id, h]

/-- Witness for C8: identifier "404" has no record in `env42`; both by-id
wrappers fail with `NoResultFound` and issue no engine call. -/
theorem claim_c8_by_id_not_found_witness :
    RecordIndexer.index_by_id env42 idx42 "404" = (.error .noResultFound, []) ∧
    RecordIndexer.delete_by_id env42 idx42 "404" =
      (.error .noResultFound, []) :=
  (claim_c8_by_id_not_found env42 idx42 "404").2 (by decide)

/-- Claim C9: a queued request whose operation is not "delete" — including
"create" and "update", which the enqueue path's assertion admits — is
translated by `_index_action`, so the produced bulk action has op type
"index", never the queued operation type. -/
theorem claim_c9_non_delete_ops_index :
    ∀ (env : Env) (idx : RecordIndexer) (p : Payload),
      p.op ≠ "delete" →
      RecordIndexer.processMessage env idx p =
        RecordIndexer._index_action env idx p ∧
      (∀ a, RecordIndexer.processMessage env idx p = .ok a →
        a.op_type = "index") ∧
      (∀ ids : List Nat,
        (RecordIndexer._bulk_op ids "create" none none).isSome ∧
        (RecordIndexer._bulk_op ids "update" none none).isSome) := by
  intro env idx p hop
  have hpm : RecordIndexer.processMessage env idx p =
      RecordIndexer._index_action env idx p := by
    simp [RecordIndexer.processMessage, hop]
  refine ⟨hpm, ?_, ?_⟩
  · intro a ha
    rw [hpm] at ha
    simp only [RecordIndexer._index_action] at ha
    split at ha
    · cases ha
    · split at ha
      · cases ha
      · injection ha with h'
        subst h'
        rfl
  · intro ids
    constructor <;> simp [RecordIndexer._bulk_op]

/-- Witness for C9: a queued "create" request for record "42" is translated
by `_index_action` and yields the bulk action with op type "index". -/
theorem claim_c9_non_delete_ops_index_witness :
    RecordIndexer.processMessage env42 idx42
        { id := "42", op := "create", index := none, doctype := none } =
      RecordIndexer._index_action env42 idx42
        { id := "42", op := "create", index := none, doctype := none } ∧
    RecordIndexer.processMessage env42 idx42
        { id := "42", op := "create", index := none, doctype := none } =
      .ok action42 := by
  have h := claim_c9_non_delete_ops_index env42 idx42
    { id := "42", op := "create", index := none, doctype := none } (by decide)
  exact ⟨h.1, h.1.trans (by decide)⟩

/-- Claim C10: for an existing record, `delete_by_id` returns no value
(`Unit`), discarding the engine's delete response, while `index_by_id`
returns the engine's response for the write: the two by-id wrappers are
asymmetric in their return behaviour. -/
theorem claim_c10_return_asymmetry :
    ∀ (env : Env) (idx : RecordIndexer) (uuid : String) (record : Record),
      env.getRecord uuid = some record →
      (RecordIndexer.delete_by_id env idx uuid).1 = .ok () ∧
      (∀ body, RecordIndexer._prepare_record env record = .ok body →
        (RecordIndexer.index_by_id env idx uuid).1 =
          .ok (env.indexResp
            { id := record.id, version := record.revision_id,
              version_type := idx.version_type,
              index := (idx.recordToIndex env record).1,
              doctype := (idx.recordToIndex env record).2,
              body := body })) := by
  intro env idx uuid record h
  constructor
  · simp [RecordIndexer.delete_by_id, h, RecordIndexer.delete, Except.map]
  · intro body hprep
    simp [RecordIndexer.index_by_id, h, RecordIndexer.index, hprep]

/-- Witness for C10: deleting record "42" by id returns `()`, indexing it
by id returns the engine response "created". -/
theorem claim_c10_return_asymmetry_witness :
    (RecordIndexer.delete_by_id env42 idx42 "42").1 = .ok () ∧
    (RecordIndexer.index_by_id env42 idx42 "42").1 = .ok "created" := by
  have h := claim_c10_return_asymmetry env42 idx42 "42" record42 (by decide)
  exact ⟨h.1, (h.2 "BODY42" (by decide)).trans (by decide)⟩

end InvenioIndexer
